import Mathlib

/-!
# Verification of the AgenticCodeReviewer review core

A shallow embedding of the review-aggregation core of the repository:

* `src/reviewer/reviewer.py` — `run_rule_checks` (with `_diff_only_lint` and
  `_clone_and_lint`) and `run_ai_review`;
* `src/reviewer/cli.py` — report building, total count and the auto-reject
  decision of `main`;
* `service.py` — the `ReviewResponse` model and the happy path of `review`.

External collaborators (subprocess tool invocations, the OpenAI endpoint,
`json.loads` of the bandit output) are modelled as explicit inputs: each tool
invocation is a `ToolResult` (exit code plus captured stdout), the model call
is a `ChatResponse`, and the parsed bandit JSON is an
`Option (List BanditItem)` where `none` models a `json.JSONDecodeError`.
Python's `str.strip`, `str.splitlines`, `str.split(":", 1)` and `float(...)`
are modelled below on ASCII text with `'\n'` as the line separator.
-/

/-! ## Python string primitives -/

/-- The ASCII whitespace characters recognised by Python's `str.strip()`. -/
def isPySpace (c : Char) : Bool :=
  c = ' ' || c = '\t' || c = '\n' || c = '\r' || c = '\x0b' || c = '\x0c'

/-- Strip leading and trailing whitespace from a character list. -/
def stripChars (l : List Char) : List Char :=
  ((l.dropWhile isPySpace).reverse.dropWhile isPySpace).reverse

/-- Python's `s.strip()`. -/
def pyStrip (s : String) : String :=
  String.mk (stripChars s.data)

/-- Helper for `pySplitlines`: split at `'\n'`, Python style (a trailing
newline does not produce a trailing empty line). `acc` holds the current
line reversed. -/
def splitlinesAux : List Char → List Char → List String
  | [], acc => [String.mk acc.reverse]
  | '\n' :: rest, acc =>
      String.mk acc.reverse :: (match rest with
        | [] => []
        | _ :: _ => splitlinesAux rest [])
  | c :: rest, acc => splitlinesAux rest (c :: acc)

/-- Python's `s.splitlines()`, restricted to `'\n'` as the line separator
(the only separator that occurs in the texts this program handles).
`pySplitlines "" = []`, and a trailing `'\n'` does not produce a trailing
empty line, exactly as in Python. -/
def pySplitlines (s : String) : List String :=
  match s.data with
  | [] => []
  | l => splitlinesAux l []

/-- Helper for `pySplitColonOnce`: scan for the first `':'`. -/
def splitColonAux : List Char → List Char → Option (String × String)
  | [], _ => none
  | ':' :: rest, acc => some (String.mk acc.reverse, String.mk rest)
  | c :: rest, acc => splitColonAux rest (c :: acc)

/-- Python's `s.split(":", 1)` restricted to the access of element `[1]`:
`some (before, after)` when the string contains a colon, `none` (an
`IndexError` on `[1]`) when it does not. -/
def pySplitColonOnce (s : String) : Option (String × String) :=
  splitColonAux s.data []

/-! ## Python `float(...)`

The score carried through the program is a Python float.  We model its
value exactly as a pair `mant * 10 ^ exp` of integers (no rounding to
binary), plus the special values `inf` and `nan` that Python's `float`
constructor also accepts.  The grammar modelled is sign, digits, optional
fraction, optional exponent, or the words `inf`/`infinity`/`nan`
(case-insensitive); digit-group underscores are not modelled. -/

/-- The value of a Python float: `finite mant exp` denotes
`mant * 10 ^ exp`; the representation produced by `pyFloatValue` is
determined by the literal parsed. -/
inductive PyFloat where
  | finite (mant : Int) (exp : Int)
  | inf (neg : Bool)
  | nan
deriving DecidableEq, Repr

/-- Numeric value of a digit string (use only on all-digit lists). -/
def digitsToNat (l : List Char) : Nat :=
  l.foldl (fun n c => 10 * n + (c.toNat - 48)) 0

/-- Parse the mantissa part `digits[.digits]` of a float literal into
`(mant, exp)` with value `mant * 10 ^ exp`. -/
def parseMantissa (l : List Char) : Option (Int × Int) :=
  let ip := l.takeWhile Char.isDigit
  let rest := l.dropWhile Char.isDigit
  match rest with
  | [] => if ip = [] then none else some ((digitsToNat ip : Int), 0)
  | '.' :: fr =>
      if fr.all Char.isDigit ∧ (ip ≠ [] ∨ fr ≠ []) then
        some (((digitsToNat ip) * 10 ^ fr.length + digitsToNat fr : Int),
              -(fr.length : Int))
      else none
  | _ => none

/-- Parse the exponent part (after `e`/`E`) of a float literal. -/
def parseExpPart (l : List Char) : Option Int :=
  match l with
  | '+' :: d => if d ≠ [] ∧ d.all Char.isDigit then some (digitsToNat d : Int) else none
  | '-' :: d => if d ≠ [] ∧ d.all Char.isDigit then some (-(digitsToNat d : Int)) else none
  | d => if d ≠ [] ∧ d.all Char.isDigit then some (digitsToNat d : Int) else none

/-- Split a float literal body at the first `e`/`E`. -/
def splitExpChars (l : List Char) : List Char × Option (List Char) :=
  match l.span (fun c => c != 'e' && c != 'E') with
  | (m, []) => (m, none)
  | (m, _ :: e) => (m, some e)

/-- Attach the sign to a parsed mantissa/exponent pair. -/
def mkFinite (neg : Bool) (m e : Int) : PyFloat :=
  PyFloat.finite (if neg then -m else m) e

/-- Python's `float(s)`: `none` models a `ValueError`. -/
def pyFloatValue (s : String) : Option PyFloat :=
  let t := (pyStrip s).data
  let sb : Bool × List Char :=
    match t with
    | '+' :: r => (false, r)
    | '-' :: r => (true, r)
    | r => (false, r)
  let low := sb.2.map Char.toLower
  if low = "inf".data ∨ low = "infinity".data then some (PyFloat.inf sb.1)
  else if low = "nan".data then some PyFloat.nan
  else
    match splitExpChars sb.2 with
    | (mpart, oexp) =>
      match parseMantissa mpart with
      | none => none
      | some me =>
        match oexp with
        | none => some (mkFinite sb.1 me.1 me.2)
        | some epart =>
          match parseExpPart epart with
          | none => none
          | some e => some (mkFinite sb.1 me.1 (me.2 + e))

/-- Whether a Python float value lies in the closed interval `[0, 1]`. -/
def PyFloat.inUnit : PyFloat → Bool
  | PyFloat.finite m e =>
      if 0 ≤ e then decide (0 ≤ m) && decide (m * 10 ^ e.toNat ≤ 1)
      else decide (0 ≤ m) && decide (m ≤ 10 ^ (-e).toNat)
  | _ => false

/-- Python's `<=` on floats (`nan` compares false with everything). -/
def PyFloat.le : PyFloat → PyFloat → Bool
  | PyFloat.nan, _ => false
  | _, PyFloat.nan => false
  | PyFloat.inf true, _ => true
  | _, PyFloat.inf false => true
  | PyFloat.inf false, _ => false
  | _, PyFloat.inf true => false
  | PyFloat.finite m1 e1, PyFloat.finite m2 e2 =>
      if e2 ≤ e1 then decide (m1 * 10 ^ (e1 - e2).toNat ≤ m2)
      else decide (m1 ≤ m2 * 10 ^ (e2 - e1).toNat)

/-- Approximate model of Python's `f"{x:.2f}"` (two-decimal rendering;
only its shape matters to the report, no claim inspects the digits). -/
def fmt2 : PyFloat → String
  | PyFloat.finite m e =>
      let n : Int :=
        if 0 ≤ e + 2 then m * 10 ^ (e + 2).toNat
        else (2 * m + 10 ^ (-(e + 2)).toNat) / (2 * 10 ^ (-(e + 2)).toNat)
      let sgn := if n < 0 then "-" else ""
      let a := n.natAbs
      sgn ++ toString (a / 100) ++ "." ++
        (if a % 100 < 10 then "0" else "") ++ toString (a % 100)
  | PyFloat.inf b => if b then "-inf" else "inf"
  | PyFloat.nan => "nan"

/-! ## Rule engine (`src/reviewer/reviewer.py`)

Each external tool invocation (`subprocess.run` with `capture_output=True`
and no `check=True`) is modelled as a `ToolResult`: the exit status and the
captured stdout.  The code never consults the exit status. -/

/-- Outcome of one `subprocess.run(..., capture_output=True)` call. -/
structure ToolResult where
  exitCode : Int
  stdout : String
deriving DecidableEq, Repr

/-- One entry of the `rules` configuration: `{tool, threshold}`.  The
schema declares `threshold` a non-negative integer, `none` models an
absent key (`cfg.get("threshold")` returning `None`). -/
structure RuleCfg where
  tool : String
  threshold : Option Nat
deriving DecidableEq, Repr

/-- One entry of bandit's parsed JSON `results` list; `none` fields model
missing keys (`item.get(...)` returning `None`). -/
structure BanditItem where
  filename : Option String
  issue_text : Option String
deriving DecidableEq, Repr

/-- Rendering of an optional string inside an f-string (`None` prints as
`"None"`). -/
def pyFStr : Option String → String
  | some s => s
  | none => "None"

/-- The current working directory's files, as a partial map from relative
path to content. -/
def FS : Type := String → Option String

/-- `[l.strip() for l in stdout.splitlines() if l.strip()]` — the
normalisation applied to every line-oriented tool output. -/
def lintLines (stdout : String) : List String :=
  ((pySplitlines stdout).map pyStrip).filter (fun l => l ≠ "")

/-- `issues[: cfg.get("threshold", 0)] if cfg.get("threshold") else issues`
from `_diff_only_lint`: truncate to the first `n` entries when the
threshold is present and non-zero, keep everything otherwise. -/
def pySliceTo (th : Option Nat) (issues : List String) : List String :=
  match th with
  | some n => if n ≠ 0 then issues.take n else issues
  | none => issues

/-- `if thresh and len(issues) > thresh: issues = issues[:thresh]` from
`_clone_and_lint`. -/
def cloneTruncate (th : Option Nat) (issues : List String) : List String :=
  match th with
  | some n => if n ≠ 0 ∧ n < issues.length then issues.take n else issues
  | none => issues

/-- Issues collected for one category in diff-only mode: flake8 runs
against the written diff file, every other tool is skipped. -/
def diffIssues (cfg : RuleCfg) (flake8Res : ToolResult) : List String :=
  if cfg.tool = "flake8" then lintLines flake8Res.stdout else []

/-- `_diff_only_lint(diff, rules_cfg)`: write the diff to `temp.diff` in
the current working directory, then run flake8 (`flake8 --diff temp.diff`)
once per flake8-configured category.  `flake8Run` maps the content of the
written diff file to the invocation's result.  Returns the violation map
(in configuration order) together with the updated working directory. -/
def _diff_only_lint (diff : String) (rules_cfg : List (String × RuleCfg))
    (flake8Run : String → ToolResult) (fs : FS) :
    List (String × List String) × FS :=
  let fs2 : FS := fun p => if p = "temp.diff" then some diff else fs p
  (rules_cfg.map (fun nc =>
    (nc.1, pySliceTo nc.2.threshold (diffIssues nc.2 (flake8Run diff)))),
   fs2)

/-- The external world of `_clone_and_lint` after the git steps succeed:
the stdout of `git diff --name-only -- *.py`, the per-file flake8 and
radon invocations, and the parsed bandit JSON (`banditJson = none` models
a `json.JSONDecodeError`; `some items` models
`json.loads(p.stdout).get("results", [])`). -/
structure CloneEnv where
  diffNamesStdout : String
  flake8Run : String → ToolResult
  radonRun : String → ToolResult
  banditJson : Option (List BanditItem)

/-- Python's `s.endswith(suffix)`. -/
def pyEndsWith (s suffix : String) : Bool :=
  suffix.data.isSuffixOf s.data

/-- `[f for f in diff_stdout.splitlines() if f.endswith(".py")]`. -/
def changedPyFiles (diffNamesStdout : String) : List String :=
  (pySplitlines diffNamesStdout).filter (fun f => pyEndsWith f ".py")

/-- Issues collected for one category in repository mode. -/
def cloneIssues (cfg : RuleCfg) (files : List String) (env : CloneEnv) :
    List String :=
  if cfg.tool = "flake8" then
    files.flatMap (fun f => lintLines (env.flake8Run f).stdout)
  else if cfg.tool = "radon" then
    files.flatMap (fun f => lintLines (env.radonRun f).stdout)
  else if cfg.tool = "bandit" then
    match env.banditJson with
    | some items =>
        items.map (fun it => pyFStr it.filename ++ ": " ++ pyFStr it.issue_text)
    | none => []
  else []

/-- `_clone_and_lint(repo_url, pr_number, base, rules_cfg)` after the git
steps succeed: run the configured tool per category over the changed
files (or the tree, for bandit) and apply the threshold. -/
def _clone_and_lint (rules_cfg : List (String × RuleCfg)) (env : CloneEnv) :
    List (String × List String) :=
  let files := changedPyFiles env.diffNamesStdout
  rules_cfg.map (fun nc =>
    (nc.1, cloneTruncate nc.2.threshold (cloneIssues nc.2 files env)))

/-- Python truthiness of the optional `repo_url` argument. -/
def pyTruthyStr : Option String → Bool
  | none => false
  | some s => s != ""

/-- Python truthiness of the optional `pr_number` argument. -/
def pyTruthyInt : Option Int → Bool
  | none => false
  | some n => n != 0

/-- `run_rule_checks(diff, rules_cfg, repo_url, pr_number, base)`:
dispatch on `if repo_url and pr_number` between repository mode and
diff-only mode. -/
def run_rule_checks (diff : String) (rules_cfg : List (String × RuleCfg))
    (repo_url : Option String) (pr_number : Option Int)
    (flake8Run : String → ToolResult) (cenv : CloneEnv) (fs : FS) :
    List (String × List String) × FS :=
  if pyTruthyStr repo_url && pyTruthyInt pr_number then
    (_clone_and_lint rules_cfg cenv, fs)
  else
    _diff_only_lint diff rules_cfg flake8Run fs

/-- The raw (pre-threshold) issue list a category's tool produces under
`run_rule_checks`'s mode dispatch. -/
def categoryIssuesOf (diff : String) (repo_url : Option String)
    (pr_number : Option Int) (flake8Run : String → ToolResult)
    (cenv : CloneEnv) (cfg : RuleCfg) : List String :=
  if pyTruthyStr repo_url && pyTruthyInt pr_number then
    cloneIssues cfg (changedPyFiles cenv.diffNamesStdout) cenv
  else
    diffIssues cfg (flake8Run diff)

/-! ## AI reviewer (`run_ai_review`) -/

/-- The `message` object of a chat-completion choice; `content = none`
models a missing/`None` content. -/
structure AiMessage where
  content : Option String
deriving DecidableEq, Repr

/-- One chat-completion choice; `message = none` models
`getattr(choice, "message", None)` returning `None`. -/
structure AiChoice where
  message : Option AiMessage
deriving DecidableEq, Repr

/-- The chat-completion response: its list of choices. -/
structure ChatResponse where
  choices : List AiChoice
deriving DecidableEq, Repr

/-- A response with a single well-formed choice carrying `c`. -/
def mkResp (c : String) : ChatResponse :=
  ChatResponse.mk [AiChoice.mk (some (AiMessage.mk (some c)))]

/-- The Python exceptions `run_ai_review` can raise: the two explicit
`RuntimeError`s (the distinguishable `AIResponseError` kind of the spec),
the `IndexError` from `resp.choices[0]` on an empty list, and the
`ValueError` from unpacking `*comments, conf = []`. -/
inductive PyErr where
  | indexError
  | valueError
  | runtimeError (msg : String)
deriving DecidableEq, Repr

instance {ε α : Type} [DecidableEq ε] [DecidableEq α] :
    DecidableEq (Except ε α) := fun a b =>
  match a, b with
  | Except.error e1, Except.error e2 =>
      if h : e1 = e2 then isTrue (by rw [h]) else
        isFalse (fun hc => h (by injection hc))
  | Except.ok v1, Except.ok v2 =>
      if h : v1 = v2 then isTrue (by rw [h]) else
        isFalse (fun hc => h (by injection hc))
  | Except.error _, Except.ok _ => isFalse (fun hc => by injection hc)
  | Except.ok _, Except.error _ => isFalse (fun hc => by injection hc)

/-- Whether an error is one of the explicit `RuntimeError`s (the
distinguishable error kind the spec calls `AIResponseError`). -/
def PyErr.isRuntime : PyErr → Bool
  | PyErr.runtimeError _ => true
  | _ => false

/-- `float(conf.split(":", 1)[1].strip())`: `none` models the
`IndexError`/`ValueError` that the bare `except:` converts into a
`RuntimeError`. -/
def parseConfidence (conf : String) : Option PyFloat :=
  match pySplitColonOnce conf with
  | none => none
  | some p => pyFloatValue (pyStrip p.2)

/-- `run_ai_review(diff, ai_cfg)` given the endpoint's response: validate
the choice/message/content, strip the content, split it into lines, take
the last line as the confidence line and every earlier line as a comment,
and parse the confidence value. -/
def run_ai_review (resp : ChatResponse) :
    Except PyErr (List String × PyFloat) :=
  match resp.choices with
  | [] => Except.error PyErr.indexError
  | choice :: _ =>
    match choice.message with
    | none => Except.error (PyErr.runtimeError "No content returned from OpenAI API")
    | some m =>
      match m.content with
      | none => Except.error (PyErr.runtimeError "No content returned from OpenAI API")
      | some c =>
        if c = "" then
          Except.error (PyErr.runtimeError "No content returned from OpenAI API")
        else
          let lines := pySplitlines (pyStrip c)
          match lines.getLast? with
          | none => Except.error PyErr.valueError
          | some conf =>
            match parseConfidence conf with
            | none =>
                Except.error (PyErr.runtimeError ("Failed to parse confidence from " ++ conf))
            | some v => Except.ok (lines.dropLast, v)

/-- The condition under which `run_ai_review` raises one of its explicit
`RuntimeError`s: no message on the first choice, no content, empty (`""`)
content, or a confidence line whose parse fails (no colon, or the text
after the first colon is not a valid float). -/
def aiRuntimeErrorCondition (resp : ChatResponse) : Prop :=
  match resp.choices with
  | [] => False
  | choice :: _ =>
    choice.message = none ∨
    ∃ m, choice.message = some m ∧
      (m.content = none ∨ m.content = some "" ∨
       ∃ s conf, m.content = some s ∧ s ≠ "" ∧
         (pySplitlines (pyStrip s)).getLast? = some conf ∧
         parseConfidence conf = none)

/-! ## CLI report and decision (`src/reviewer/cli.py`, `main`) -/

/-- The `ai_review` configuration fields the report rendering reads. -/
structure AiCfg where
  min_confidence : PyFloat
  max_comments : Nat
deriving Repr

/-- The report `main` builds: the total violation count and the markdown
lines. -/
structure Report where
  total : Nat
  lines : List String
deriving DecidableEq, Repr

/-- Steps 4 of `cli.main`: `total = sum(len(v) for v in rules.values()) +
len(ai_comments)`, then the markdown lines with the confidence-gated AI
section. -/
def buildReport (rules : List (String × List String))
    (aiComments : List String) (aiScore : PyFloat) (ai : AiCfg) : Report :=
  { total := (rules.map (fun p => p.2.length)).sum + aiComments.length
    lines :=
      ["# AI Code Quality Report", "", "## Rule-based Violations"]
      ++ rules.flatMap (fun p =>
           ("### " ++ p.1 ++ " (" ++ toString p.2.length ++ ")")
             :: p.2.map (fun i => "- " ++ i))
      ++ ["\n## AI Suggestions"]
      ++ (if PyFloat.le ai.min_confidence aiScore then
            (aiComments.take ai.max_comments).map (fun c => "- " ++ c)
          else
            ["*Skipped AI feedback (confidence " ++ fmt2 aiScore ++ " < threshold).*"]) }

/-- Step 7 of `cli.main`: `if auto_reject or cfg["auto_reject"]["enabled"]:
if total > cfg["auto_reject"]["overall_threshold"]: echo(err) ; exit(1)`.
Returns whether the CLI exits non-zero, and the line printed to the error
stream. -/
def cliDecision (autoReject enabled : Bool) (total : Nat)
    (overallThreshold : Int) : Bool × Option String :=
  if autoReject || enabled then
    if (total : Int) > overallThreshold then
      (true, some (toString total ++ " violations > threshold"))
    else (false, none)
  else (false, none)

/-! ## Service response (`service.py`) -/

/-- The `ReviewResponse` pydantic model: three violation-category lists
plus the AI comments and score. -/
structure ReviewResponse where
  naming_convention : List String
  complexity : List String
  security : List String
  ai_comments : List String
  ai_score : PyFloat
deriving DecidableEq, Repr

/-- Python's `rules.get(key, [])`. -/
def pyDictGet (rules : List (String × List String)) (k : String) :
    List String :=
  match rules.lookup k with
  | some v => v
  | none => []

/-- Step 4 of `service.review`: build the flat JSON response from the rule
results and the AI review. -/
def service_review (rules : List (String × List String))
    (ai : List String × PyFloat) : ReviewResponse :=
  { naming_convention := pyDictGet rules "naming_convention"
    complexity := pyDictGet rules "complexity"
    security := pyDictGet rules "security"
    ai_comments := ai.1
    ai_score := ai.2 }

/-- The violation-category lists a `ReviewResponse` carries, with their
field names (a full enumeration of its `List String` category fields). -/
def responseCategoryLists (r : ReviewResponse) : List (String × List String) :=
  [("naming_convention", r.naming_convention),
   ("complexity", r.complexity),
   ("security", r.security)]

/-! ## Helper lemmas -/

/-- `splitlinesAux` never returns the empty list. -/
theorem splitlinesAux_ne_nil : ∀ (l acc : List Char), splitlinesAux l acc ≠ [] := by
  intro l
  induction l with
  | nil => intro acc; simp [splitlinesAux]
  | cons c rest ih =>
    intro acc
    by_cases hc : c = '\n'
    · subst hc
      cases rest with
      | nil => simp [splitlinesAux]
      | cons d tl => simp [splitlinesAux]
    · simpa [splitlinesAux, hc] using ih (c :: acc)

/-- Splitting a non-empty string yields at least one line. -/
theorem pySplitlines_ne_nil {s : String} (h : s ≠ "") : pySplitlines s ≠ [] := by
  cases s with
  | mk data =>
    cases data with
    | nil => exact absurd rfl h
    | cons c rest => simpa [pySplitlines] using splitlinesAux_ne_nil (c :: rest) []

/-- The two threshold-application forms of the source
(`issues[:th] if th else issues` in `_diff_only_lint` and
`if th and len(issues) > th: issues = issues[:th]` in `_clone_and_lint`)
agree. -/
theorem cloneTruncate_eq_pySliceTo (th : Option Nat) (l : List String) :
    cloneTruncate th l = pySliceTo th l := by
  cases th with
  | none => rfl
  | some n =>
    by_cases hn : n = 0
    · simp [cloneTruncate, pySliceTo, hn]
    · by_cases hl : n < l.length
      · simp [cloneTruncate, pySliceTo, hn, hl]
      · simp [cloneTruncate, pySliceTo, hn, hl,
              List.take_of_length_le (Nat.le_of_not_lt hl)]

/-- Pairs of `l.zip (l.map f)` pair each element with its image. -/
theorem zip_map_self {α β : Type} (f : α → β) :
    ∀ (l : List α), ∀ pr ∈ l.zip (l.map f), pr.2 = f pr.1 := by
  intro l
  induction l with
  | nil => intro pr h; simp at h
  | cons a tl ih =>
    intro pr h
    simp only [List.map_cons, List.zip_cons_cons, List.mem_cons] at h
    cases h with
    | inl h => subst h; rfl
    | inr h => exact ih pr h

/-! ## Concrete inputs used by witnesses and counterexamples -/

/-- An empty working directory. -/
def fsNone : FS := fun _ => none

/-- A flake8 invocation that exits non-zero with three stdout lines. -/
def f8Three : String → ToolResult := fun _ => ToolResult.mk 1 "a\nb\nc\n"

/-- A repository-mode environment with no findings and unparsable bandit
output. -/
def cenvNone : CloneEnv :=
  CloneEnv.mk "" (fun _ => ToolResult.mk 0 "") (fun _ => ToolResult.mk 0 "") none

/-- The same environment with different (failing) exit codes. -/
def cenvNoneFailing : CloneEnv :=
  CloneEnv.mk "" (fun _ => ToolResult.mk 7 "") (fun _ => ToolResult.mk 5 "") none

/-! ## Claims -/

/-- C4: for every report, the total violation count equals the sum of the
category list lengths plus the number of all AI comments the model
produced (pre-gating); it does not depend on the confidence score or the
`min_confidence`/`max_comments` gate used for rendering. -/
theorem report_total_counts_pregating_comments
    (rules : List (String × List String)) (aiComments : List String)
    (s1 s2 : PyFloat) (a1 a2 : AiCfg) :
    (buildReport rules aiComments s1 a1).total
        = (rules.map (fun p => p.2.length)).sum + aiComments.length ∧
    (buildReport rules aiComments s1 a1).total
        = (buildReport rules aiComments s2 a2).total :=
  ⟨rfl, rfl⟩

/-- C5: the CLI signals rejection — exits non-zero and prints the count to
the error stream — if and only if (the auto-reject flag is set or the
decision config is enabled) and the total exceeds the overall threshold. -/
theorem cli_rejects_iff_flag_or_enabled_and_over_threshold
    (autoReject enabled : Bool) (total : Nat) (th : Int) :
    ((cliDecision autoReject enabled total th).1 = true ↔
      ((autoReject = true ∨ enabled = true) ∧ (total : Int) > th)) ∧
    ((cliDecision autoReject enabled total th).1 = true →
      (cliDecision autoReject enabled total th).2
        = some (toString total ++ " violations > threshold")) := by
  constructor
  · cases autoReject <;> cases enabled <;>
      by_cases h : (total : Int) > th <;> simp [cliDecision, h]
  · intro h1
    cases autoReject <;> cases enabled <;>
      by_cases h : (total : Int) > th <;> simp [cliDecision, h] at h1 ⊢

theorem cli_rejects_iff_flag_or_enabled_and_over_threshold_witness :
    (cliDecision true false 5 3).1 = true ∧
    (cliDecision true false 5 3).2 = some (toString 5 ++ " violations > threshold") := by
  have h := cli_rejects_iff_flag_or_enabled_and_over_threshold true false 5 3
  have h1 : (cliDecision true false 5 3).1 = true :=
    h.1.mpr ⟨Or.inl rfl, by decide⟩
  exact ⟨h1, h.2 h1⟩

/-- C9 counterexample: the service response carries exactly three
violation-category lists, not four; a fourth configured category
(`"style"` here) is present in the rule results but absent from the
response. -/
theorem service_response_has_three_category_lists :
    (responseCategoryLists (service_review
        [("naming_convention", []), ("complexity", []), ("security", []),
         ("style", ["x"])] ([], PyFloat.nan))).length = 3 ∧
    ("style", ["x"]) ∈
      [("naming_convention", ([] : List String)), ("complexity", []),
       ("security", []), ("style", ["x"])] ∧
    ("style", ["x"]) ∉ responseCategoryLists (service_review
        [("naming_convention", []), ("complexity", []), ("security", []),
         ("style", ["x"])] ([], PyFloat.nan)) := by
  refine ⟨by decide, by decide, by decide⟩

/-- C9 (amended): for every successful service request, the response
contains the lists of the three violation categories
`naming_convention`, `complexity` and `security` (each defaulting to `[]`
when absent from the rule results) plus the AI comments and the AI
score. -/
theorem service_response_three_categories_and_ai_fields
    (rules : List (String × List String)) (cmts : List String)
    (sc : PyFloat) :
    responseCategoryLists (service_review rules (cmts, sc)) =
      [("naming_convention", pyDictGet rules "naming_convention"),
       ("complexity", pyDictGet rules "complexity"),
       ("security", pyDictGet rules "security")] ∧
    (service_review rules (cmts, sc)).ai_comments = cmts ∧
    (service_review rules (cmts, sc)).ai_score = sc :=
  ⟨rfl, rfl, rfl⟩

/-- C10: in diff-only mode the review writes the diff to the relative
path `temp.diff` in the current working directory (the path contains no
directory separator), the file is still present with that content when
the function returns (never deleted), and no other path of the working
directory is touched. -/
theorem diff_only_lint_frame_effect
    (diff : String) (rules_cfg : List (String × RuleCfg))
    (flake8Run : String → ToolResult) (fs : FS) :
    (_diff_only_lint diff rules_cfg flake8Run fs).2 "temp.diff" = some diff ∧
    (∀ p, p ≠ "temp.diff" →
      (_diff_only_lint diff rules_cfg flake8Run fs).2 p = fs p) ∧
    "temp.diff".data.contains '/' = false := by
  refine ⟨rfl, ?_, by decide⟩
  intro p hp
  simp [_diff_only_lint, hp]

theorem diff_only_lint_frame_effect_witness :
    (_diff_only_lint "x" [] f8Three fsNone).2 "temp.diff" = some "x" ∧
    (_diff_only_lint "x" [] f8Three fsNone).2 "other.txt" = fsNone "other.txt" := by
  have h := diff_only_lint_frame_effect "x" [] f8Three fsNone
  exact ⟨h.1, h.2.1 "other.txt" (by decide)⟩

/-- `run_rule_checks` is the configuration-order map that pairs each
category with its thresholded raw issue list. -/
theorem run_rule_checks_eq_map
    (diff : String) (rules_cfg : List (String × RuleCfg))
    (repo_url : Option String) (pr_number : Option Int)
    (flake8Run : String → ToolResult) (cenv : CloneEnv) (fs : FS) :
    (run_rule_checks diff rules_cfg repo_url pr_number flake8Run cenv fs).1
      = rules_cfg.map (fun nc => (nc.1, pySliceTo nc.2.threshold
          (categoryIssuesOf diff repo_url pr_number flake8Run cenv nc.2))) := by
  unfold run_rule_checks categoryIssuesOf _clone_and_lint _diff_only_lint
  by_cases h : (pyTruthyStr repo_url && pyTruthyInt pr_number) = true
  · simp [h, cloneTruncate_eq_pySliceTo]
  · simp [h]

/-- Applying `pySliceTo` to the empty issue list yields the empty list. -/
theorem pySliceTo_nil (th : Option Nat) : pySliceTo th [] = [] := by
  cases th with
  | none => rfl
  | some n => by_cases hn : n = 0 <;> simp [pySliceTo, hn]

/-- C3: for every category and every tool output, the violation list
`run_rule_checks` returns for that category is the `pySliceTo`-truncation
of that category's raw tool-output-order issue list: when the threshold
is a positive `n` it is the length-`≤ n` prefix `take n`, and when the
threshold is `0` or absent it is the whole list. -/
theorem rule_checks_threshold_prefix_truncation
    (diff : String) (rules_cfg : List (String × RuleCfg))
    (repo_url : Option String) (pr_number : Option Int)
    (flake8Run : String → ToolResult) (cenv : CloneEnv) (fs : FS) :
    ∀ pr ∈ rules_cfg.zip
        (run_rule_checks diff rules_cfg repo_url pr_number flake8Run cenv fs).1,
      pr.2.1 = pr.1.1 ∧
      pr.2.2 = pySliceTo pr.1.2.threshold
        (categoryIssuesOf diff repo_url pr_number flake8Run cenv pr.1.2) ∧
      (∀ n, pr.1.2.threshold = some n → 0 < n →
        pr.2.2 = (categoryIssuesOf diff repo_url pr_number flake8Run cenv pr.1.2).take n ∧
        pr.2.2.length ≤ n) ∧
      ((pr.1.2.threshold = none ∨ pr.1.2.threshold = some 0) →
        pr.2.2 = categoryIssuesOf diff repo_url pr_number flake8Run cenv pr.1.2) := by
  intro pr hpr
  rw [run_rule_checks_eq_map] at hpr
  have h2 := zip_map_self _ rules_cfg pr hpr
  refine ⟨by rw [h2], by rw [h2], ?_, ?_⟩
  · intro n hth hn
    rw [h2]
    refine ⟨?_, ?_⟩
    · simp [hth, pySliceTo, hn.ne.symm]
    · simp only [hth, pySliceTo, if_pos hn.ne.symm]
      exact List.length_take_le n _
  · intro hth
    rw [h2]
    rcases hth with h | h <;> simp [pySliceTo, h]

theorem rule_checks_threshold_prefix_truncation_witness :
    (("style", (["a", "b"] : List String)) : String × List String).2
      = (categoryIssuesOf "d" none none f8Three cenvNone
          (RuleCfg.mk "flake8" (some 2))).take 2 ∧
    (("style", (["a", "b"] : List String)) : String × List String).2.length ≤ 2 := by
  have h := rule_checks_threshold_prefix_truncation "d"
      [("style", RuleCfg.mk "flake8" (some 2))] none none f8Three cenvNone fsNone
      (("style", RuleCfg.mk "flake8" (some 2)), ("style", ["a", "b"]))
      (by decide)
  exact h.2.2.1 2 rfl (by decide)

/-- C7: in diff-only mode the returned violation map has exactly the
configured category names as keys, in configuration order, and every
category whose tool is not flake8 (radon, bandit, or any unknown tool
identifier) maps to the empty list. -/
theorem diff_only_keys_and_unsupported_tools_empty
    (diff : String) (rules_cfg : List (String × RuleCfg))
    (repo_url : Option String) (pr_number : Option Int)
    (flake8Run : String → ToolResult) (cenv : CloneEnv) (fs : FS)
    (hmode : (pyTruthyStr repo_url && pyTruthyInt pr_number) = false) :
    ((run_rule_checks diff rules_cfg repo_url pr_number flake8Run cenv fs).1).map
        Prod.fst = rules_cfg.map Prod.fst ∧
    ∀ pr ∈ rules_cfg.zip
        (run_rule_checks diff rules_cfg repo_url pr_number flake8Run cenv fs).1,
      pr.1.2.tool ≠ "flake8" → pr.2.2 = [] := by
  constructor
  · rw [run_rule_checks_eq_map]
    rw [List.map_map]
    rfl
  · intro pr hpr htool
    rw [run_rule_checks_eq_map] at hpr
    have h2 := zip_map_self _ rules_cfg pr hpr
    rw [h2]
    have hraw : categoryIssuesOf diff repo_url pr_number flake8Run cenv pr.1.2 = [] := by
      unfold categoryIssuesOf
      rw [hmode]
      simp [diffIssues, htool]
    simp only [hraw]
    exact pySliceTo_nil _

theorem diff_only_keys_and_unsupported_tools_empty_witness :
    ((run_rule_checks "d" [("security", RuleCfg.mk "bandit" (some 3))] none none
        f8Three cenvNone fsNone).1).map Prod.fst = ["security"] ∧
    (("security", RuleCfg.mk "bandit" (some 3)),
      ("security", ([] : List String))).2.2 = [] := by
  have h := diff_only_keys_and_unsupported_tools_empty "d"
      [("security", RuleCfg.mk "bandit" (some 3))] none none f8Three cenvNone
      fsNone (by decide)
  refine ⟨by rw [h.1]; rfl, ?_⟩
  exact h.2 (("security", RuleCfg.mk "bandit" (some 3)),
    ("security", ([] : List String))) (by decide) (by decide)

/-- C6 counterexample: a flake8 invocation that exits non-zero (exit 2 is
flake8's failure status) with diagnostic text on stdout does NOT
contribute an empty list — its stdout lines are collected as issues. -/
theorem failing_tool_stdout_still_collected :
    (ToolResult.mk 2 "boom\n").exitCode ≠ 0 ∧
    (_diff_only_lint "d" [("style", RuleCfg.mk "flake8" none)]
        (fun _ => ToolResult.mk 2 "boom\n") fsNone).1
      = [("style", ["boom"])] ∧
    (["boom"] : List String) ≠ [] := by
  refine ⟨by decide, by decide, by decide⟩

/-- C6 (amended): a failing analysis-tool invocation never aborts the
review and no error propagates: the result is computed from the tool's
captured stdout exactly as on success — the exit status is ignored in
both modes — so the failing tool's category contributes the issues
parsed from its stdout (empty exactly when the stdout has no non-blank
lines); the security scanner's category contributes the empty list when
its JSON output is unparsable. -/
theorem tool_failures_do_not_abort_review :
    (∀ (diff : String) (rules_cfg : List (String × RuleCfg)) (fs : FS)
        (f g : String → ToolResult),
      (∀ d, (f d).stdout = (g d).stdout) →
      _diff_only_lint diff rules_cfg f fs = _diff_only_lint diff rules_cfg g fs) ∧
    (∀ (rules_cfg : List (String × RuleCfg)) (e1 e2 : CloneEnv),
      e1.diffNamesStdout = e2.diffNamesStdout →
      (∀ fl, (e1.flake8Run fl).stdout = (e2.flake8Run fl).stdout) →
      (∀ fl, (e1.radonRun fl).stdout = (e2.radonRun fl).stdout) →
      e1.banditJson = e2.banditJson →
      _clone_and_lint rules_cfg e1 = _clone_and_lint rules_cfg e2) ∧
    (∀ (rules_cfg : List (String × RuleCfg)) (env : CloneEnv),
      env.banditJson = none →
      ∀ pr ∈ rules_cfg.zip (_clone_and_lint rules_cfg env),
        pr.1.2.tool = "bandit" → pr.2.2 = []) := by
  refine ⟨?_, ?_, ?_⟩
  · intro diff rules_cfg fs f g h
    have hd : ∀ cfg : RuleCfg, diffIssues cfg (f diff) = diffIssues cfg (g diff) := by
      intro cfg
      unfold diffIssues
      rw [h diff]
    simp [_diff_only_lint, hd]
  · intro rules_cfg e1 e2 h1 h2 h3 h4
    have hfl : (fun fl => lintLines (e1.flake8Run fl).stdout)
        = (fun fl => lintLines (e2.flake8Run fl).stdout) := by
      funext fl; rw [h2 fl]
    have hrd : (fun fl => lintLines (e1.radonRun fl).stdout)
        = (fun fl => lintLines (e2.radonRun fl).stdout) := by
      funext fl; rw [h3 fl]
    have hci : ∀ cfg files, cloneIssues cfg files e1 = cloneIssues cfg files e2 := by
      intro cfg files
      unfold cloneIssues
      rw [h4, hfl, hrd]
    simp [_clone_and_lint, h1, hci]
  · intro rules_cfg env hb pr hpr htool
    have hmap : _clone_and_lint rules_cfg env
        = rules_cfg.map (fun nc => (nc.1, cloneTruncate nc.2.threshold
            (cloneIssues nc.2 (changedPyFiles env.diffNamesStdout) env))) := rfl
    rw [hmap] at hpr
    have h2 := zip_map_self
        (fun nc => (nc.1, cloneTruncate nc.2.threshold
          (cloneIssues nc.2 (changedPyFiles env.diffNamesStdout) env)))
        rules_cfg pr hpr
    rw [h2]
    have hraw : cloneIssues pr.1.2 (changedPyFiles env.diffNamesStdout) env = [] := by
      unfold cloneIssues
      rw [htool, hb]
      simp
    simp only [hraw]
    rw [cloneTruncate_eq_pySliceTo]
    exact pySliceTo_nil _

theorem tool_failures_do_not_abort_review_witness :
    _clone_and_lint [("security", RuleCfg.mk "bandit" (some 3))] cenvNone
      = _clone_and_lint [("security", RuleCfg.mk "bandit" (some 3))]
          cenvNoneFailing :=
  tool_failures_do_not_abort_review.2.1
    [("security", RuleCfg.mk "bandit" (some 3))] cenvNone cenvNoneFailing
    rfl (fun _ => rfl) (fun _ => rfl) rfl

/-- C1 counterexample: the response `"\nGood.\nConfidence: 0.5"` has
`"Confidence: 0.5"` as its last line, so the claim predicts the comments
`["", "Good."]` (every preceding line, blank line preserved verbatim);
the code strips the content first and returns only `["Good."]`. -/
theorem ai_review_drops_leading_blank_line :
    run_ai_review (mkResp "\nGood.\nConfidence: 0.5")
      = Except.ok (["Good."], PyFloat.finite 5 (-1)) ∧
    (pySplitlines "\nGood.\nConfidence: 0.5").dropLast = ["", "Good."] ∧
    (["Good."] : List String) ≠ ["", "Good."] := by
  refine ⟨by decide, by decide, by decide⟩

/-- C1 (amended): for every model response whose content, after stripping
leading and trailing whitespace from the whole text, splits into lines
`comments ++ [conf]` where the text after the first colon of `conf`
parses as a float `v`, `run_ai_review` returns exactly
`(comments, v)` — so blank lines strictly inside the comment block are
preserved, while leading/trailing whitespace (including leading blank
lines) is removed by the strip before splitting. -/
theorem ai_review_parses_comments_from_stripped_response
    (c : String) (comments : List String) (conf : String) (v : PyFloat)
    (hsplit : pySplitlines (pyStrip c) = comments ++ [conf])
    (hconf : parseConfidence conf = some v) :
    run_ai_review (mkResp c) = Except.ok (comments, v) := by
  have hne : c ≠ "" := by
    intro h
    subst h
    have : pySplitlines (pyStrip "") = [] := by decide
    rw [this] at hsplit
    exact List.cons_ne_nil conf [] (List.append_eq_nil.mp hsplit.symm).2
  have h1 : run_ai_review (mkResp c)
      = (match (pySplitlines (pyStrip c)).getLast? with
         | none => Except.error PyErr.valueError
         | some conf2 =>
           match parseConfidence conf2 with
           | none => Except.error
               (PyErr.runtimeError ("Failed to parse confidence from " ++ conf2))
           | some v2 => Except.ok ((pySplitlines (pyStrip c)).dropLast, v2)) := by
    simp [run_ai_review, mkResp, hne]
  rw [h1, hsplit, List.getLast?_concat]
  simp [hconf, List.dropLast_concat]

theorem ai_review_parses_comments_from_stripped_response_witness :
    run_ai_review (mkResp "Good.\nConfidence: 0.85")
      = Except.ok (["Good."], PyFloat.finite 85 (-2)) :=
  ai_review_parses_comments_from_stripped_response "Good.\nConfidence: 0.85"
    ["Good."] "Confidence: 0.85" (PyFloat.finite 85 (-2)) (by decide) (by decide)

/-- C8 counterexample: the response `"Confidence: 5.0"` is accepted by
`run_ai_review` and returns the score 5.0, which lies outside `[0, 1]` —
the code performs no range check on the parsed confidence. -/
theorem ai_review_accepts_out_of_unit_score :
    run_ai_review (mkResp "Confidence: 5.0")
      = Except.ok ([], PyFloat.finite 50 (-1)) ∧
    PyFloat.inUnit (PyFloat.finite 50 (-1)) = false := by
  refine ⟨by decide, by decide⟩

/-- C8 (amended): for every response `run_ai_review` accepts, the
returned score is exactly the float parsed from the text after the first
colon of the last line of the stripped content — no range restriction is
applied, so the score lies in `[0, 1]` only when that parsed float
does. -/
theorem ai_review_score_equals_parsed_confidence
    (resp : ChatResponse) (cs : List String) (v : PyFloat)
    (h : run_ai_review resp = Except.ok (cs, v)) :
    ∃ choice rest m s conf,
      resp.choices = choice :: rest ∧ choice.message = some m ∧
      m.content = some s ∧ s ≠ "" ∧
      (pySplitlines (pyStrip s)).getLast? = some conf ∧
      parseConfidence conf = some v ∧
      cs = (pySplitlines (pyStrip s)).dropLast := by
  rcases resp with ⟨choices⟩
  cases choices with
  | nil => simp [run_ai_review] at h
  | cons choice rest =>
    rcases choice with ⟨om⟩
    cases om with
    | none => simp [run_ai_review] at h
    | some m =>
      rcases m with ⟨oc⟩
      cases oc with
      | none => simp [run_ai_review] at h
      | some s =>
        by_cases hs : s = ""
        · subst hs; simp [run_ai_review] at h
        · rcases hg : (pySplitlines (pyStrip s)).getLast? with _ | conf
          · simp [run_ai_review, hs, hg] at h
          · rcases hp : parseConfidence conf with _ | v2
            · simp [run_ai_review, hs, hg, hp] at h
            · simp only [run_ai_review, hs, hg, hp, if_neg hs] at h
              refine ⟨AiChoice.mk (some (AiMessage.mk (some s))), rest,
                AiMessage.mk (some s), s, conf, rfl, rfl, rfl, hs, hg, ?_, ?_⟩
              · rw [hp]
                have h2 := h
                injection h2 with h3
                injection h3 with h4 h5
                rw [h5]
              · have h2 := h
                injection h2 with h3
                injection h3 with h4 h5
                rw [h4]

theorem ai_review_score_equals_parsed_confidence_witness :
    ∃ choice rest m s conf,
      (mkResp "Ok\nConfidence: 0.5").choices = choice :: rest ∧
      choice.message = some m ∧ m.content = some s ∧ s ≠ "" ∧
      (pySplitlines (pyStrip s)).getLast? = some conf ∧
      parseConfidence conf = some (PyFloat.finite 5 (-1)) ∧
      ["Ok"] = (pySplitlines (pyStrip s)).dropLast :=
  ai_review_score_equals_parsed_confidence (mkResp "Ok\nConfidence: 0.5")
    ["Ok"] (PyFloat.finite 5 (-1)) (by decide)

/-- C2 counterexample: a whitespace-only (hence non-empty) content
strips to the empty string, so the line unpacking `*comments, conf`
fails with a plain `ValueError` — the review fails, but not with the
distinguishable `RuntimeError` (`AIResponseError`) kind the claim
requires for the "empty after trimming" case. -/
theorem whitespace_only_content_fails_with_value_error :
    run_ai_review (mkResp " ") = Except.error PyErr.valueError ∧
    PyErr.isRuntime PyErr.valueError = false := by
  refine ⟨by decide, by decide⟩

/-- C2 (amended): `run_ai_review` fails with its distinguishable
`RuntimeError` kind if and only if the first choice has no message, the
content is missing or is the empty string, or the last line of the
stripped content fails to parse (no colon, or the text after the first
colon is not a valid float).  The two remaining failure shapes raise
generic errors instead: an empty `choices` list fails with `IndexError`,
and whitespace-only (non-empty) content fails with `ValueError`; in
every other case the function returns normally (see the acceptance
characterisation of the score theorem). -/
theorem ai_review_runtime_error_characterisation (resp : ChatResponse) :
    ((∃ msg, run_ai_review resp = Except.error (PyErr.runtimeError msg)) ↔
        aiRuntimeErrorCondition resp) ∧
    (resp.choices = [] → run_ai_review resp = Except.error PyErr.indexError) ∧
    (∀ choice rest m s, resp.choices = choice :: rest →
      choice.message = some m → m.content = some s → s ≠ "" →
      pyStrip s = "" →
      run_ai_review resp = Except.error PyErr.valueError) := by
  refine ⟨?_, ?_, ?_⟩
  · rcases hch : resp.choices with _ | ⟨choice, rest⟩
    · simp [run_ai_review, aiRuntimeErrorCondition, hch]
    · rcases hm : choice.message with _ | m
      · simp [run_ai_review, aiRuntimeErrorCondition, hch, hm]
      · rcases hc : m.content with _ | s
        · simp [run_ai_review, aiRuntimeErrorCondition, hch, hm, hc]
        · by_cases hs : s = ""
          · subst hs
            simp [run_ai_review, aiRuntimeErrorCondition, hch, hm, hc]
          · rcases hg : (pySplitlines (pyStrip s)).getLast? with _ | conf
            · simp [run_ai_review, aiRuntimeErrorCondition, hch, hm, hc, hs, hg]
            · rcases hp : parseConfidence conf with _ | v
              · simp [run_ai_review, aiRuntimeErrorCondition, hch, hm, hc,
                      hs, hg, hp]
              · simp [run_ai_review, aiRuntimeErrorCondition, hch, hm, hc,
                      hs, hg, hp]
  · intro h
    simp [run_ai_review, h]
  · intro choice rest m s h1 h2 h3 h4 h5
    have hsl : pySplitlines (pyStrip s) = [] := by rw [h5]; rfl
    simp [run_ai_review, h1, h2, h3, h4, hsl]

theorem ai_review_runtime_error_characterisation_witness :
    run_ai_review (ChatResponse.mk []) = Except.error PyErr.indexError :=
  (ai_review_runtime_error_characterisation (ChatResponse.mk [])).2.1 rfl
